import Mathlib

/-!
Shallow embedding of `awskillswitch.go` (package main): the remediation
dispatcher `HandleRequest` and its two executors `applySCP` and `manageRole`.
External collaborators (STS credential assumption, IAM, Organizations, the
`switch.conf` file) are modelled as an explicit environment `Env`; every
provider call the Go code issues is recorded in a trace of `CloudCall`
events, in program order.  The Go `(string, error)` return pairs are modelled
as `String × Option String`, with the exact `fmt.Errorf` / `fmt.Sprintf`
texts reproduced by string concatenation.
-/

namespace KillSwitch

/-- The `Action` string type of the Go source (`type Action string`). -/
abbrev Action := String

/-- `ApplySCP Action = "apply_scp"` from the Go const block. -/
def ApplySCP : Action := "apply_scp"

/-- `DeleteRole Action = "delete_role"` from the Go const block. -/
def DeleteRole : Action := "delete_role"

/-- `DetachPolicies Action = "detach_policies"` from the Go const block. -/
def DetachPolicies : Action := "detach_policies"

/-- `DefaultRegion = "us-east-1"`: default region used when the request does
not specify one. -/
def DefaultRegion : String := "us-east-1"

/-- The `Request` struct: one inbound remediation request. Go strings are
never null, so optional JSON fields simply decode to `""`. -/
structure Request where
  Action : Action
  TargetAccountID : String
  RoleToAssume : String
  TargetRoleName : String
  OrgManagementAccountID : String
  Region : String
  deriving DecidableEq, Repr

/-- The nested `switchPolicies` object of the `Config` struct; the
`json.RawMessage` payload is kept as the string `applySCP` converts it to. -/
structure SwitchPoliciesData where
  SCPolicy : String
  deriving DecidableEq, Repr

/-- The `Config` struct parsed from `switch.conf`. -/
structure Config where
  SwitchConfigVersion : String
  SwitchPolicies : SwitchPoliciesData
  deriving DecidableEq, Repr

/-- One provider call issued by the program, with the arguments the Go code
passes.  `assumeRole` records the role ARN handed to
`stscreds.NewCredentials`; the remaining constructors are the IAM and
Organizations API calls. -/
inductive CloudCall where
  | assumeRole (arn : String)
  | createPolicy (content description name ptype : String)
  | attachPolicy (policyId targetId : String)
  | listAttachedRolePolicies (roleName : String)
  | detachRolePolicy (roleName policyArn : String)
  | listRolePolicies (roleName : String)
  | deleteRolePolicy (roleName policyName : String)
  | deleteRole (roleName : String)
  deriving DecidableEq, Repr

/-- Behaviour of the Organizations service for one invocation:
`createPolicy` either fails with a provider error or returns the new policy
id (`policyResp.Policy.PolicySummary.Id`); `attachPolicy` takes the policy
id and target id and optionally fails. -/
structure OrgProvider where
  createPolicy : Except String String
  attachPolicy : String → String → Option String
  deriving Inhabited

/-- Behaviour of the IAM service for one invocation: the two list calls
either fail or return the attached-policy ARNs / inline-policy names, and
each mutating call optionally fails per argument. -/
structure IamProvider where
  listAttached : Except String (List String)
  detach : String → Option String
  listInline : Except String (List String)
  deleteInline : String → Option String
  deleteRoleErr : Option String
  deriving Inhabited

/-- The whole external world of one invocation.  `config` is the result of
`loadConfig "switch.conf"` (`os.ReadFile` + `json.Unmarshal`, both external
I/O): `Except.error e` when the file is unreadable or malformed, with `e`
the underlying error text that `HandleRequest` wraps. -/
structure Env where
  config : Except String Config
  org : OrgProvider
  iam : IamProvider
  deriving Inhabited

/-- The detach loop of `manageRole` (lines 140-148): detach each attached
managed policy in order, stopping at the first failure with the
`fmt.Errorf` text naming the offending policy ARN.  Returns the calls
attempted and the error, if any. -/
def detachLoop (env : Env) (targetAccountID targetRoleName : String) :
    List String → List CloudCall × Option String
  | [] => ([], none)
  | arn :: rest =>
    match env.iam.detach arn with
    | some e =>
      ([CloudCall.detachRolePolicy targetRoleName arn],
       some ("error detaching policy " ++ arn ++ " from role " ++ targetRoleName ++
             " in account " ++ targetAccountID ++ ": " ++ e))
    | none =>
      let r := detachLoop env targetAccountID targetRoleName rest
      (CloudCall.detachRolePolicy targetRoleName arn :: r.1, r.2)

/-- The inline-policy deletion loop of `manageRole` (lines 157-165): delete
each inline policy in order, stopping at the first failure. -/
def deleteInlineLoop (env : Env) (targetAccountID targetRoleName : String) :
    List String → List CloudCall × Option String
  | [] => ([], none)
  | name :: rest =>
    match env.iam.deleteInline name with
    | some e =>
      ([CloudCall.deleteRolePolicy targetRoleName name],
       some ("error deleting inline policy " ++ name ++ " from role " ++ targetRoleName ++
             " in account " ++ targetAccountID ++ ": " ++ e))
    | none =>
      let r := deleteInlineLoop env targetAccountID targetRoleName rest
      (CloudCall.deleteRolePolicy targetRoleName name :: r.1, r.2)

/-- Body of `manageRole` after the credential setup and the
`ListAttachedRolePolicies` call: detach loop, inline listing and deletion,
and the final `DeleteRole` when the action is `delete_role`. -/
def manageRoleAux (env : Env) (action : Action) (targetAccountID targetRoleName : String) :
    List CloudCall × String × Option String :=
  match env.iam.listAttached with
  | Except.error e =>
    ([], "",
     some ("error listing attached policies for role " ++ targetRoleName ++
           " in account " ++ targetAccountID ++ ": " ++ e))
  | Except.ok arns =>
    let d := detachLoop env targetAccountID targetRoleName arns
    match d.2 with
    | some msg => (d.1, "", some msg)
    | none =>
      match env.iam.listInline with
      | Except.error e =>
        (d.1 ++ [CloudCall.listRolePolicies targetRoleName], "",
         some ("error listing inline policies for role " ++ targetRoleName ++
               " in account " ++ targetAccountID ++ ": " ++ e))
      | Except.ok names =>
        let dl := deleteInlineLoop env targetAccountID targetRoleName names
        match dl.2 with
        | some msg =>
          (d.1 ++ [CloudCall.listRolePolicies targetRoleName] ++ dl.1, "", some msg)
        | none =>
          if action = DeleteRole then
            match env.iam.deleteRoleErr with
            | some e =>
              (d.1 ++ [CloudCall.listRolePolicies targetRoleName] ++ dl.1 ++
                 [CloudCall.deleteRole targetRoleName], "",
               some ("error deleting role " ++ targetRoleName ++ " in account " ++
                     targetAccountID ++ ": " ++ e))
            | none =>
              (d.1 ++ [CloudCall.listRolePolicies targetRoleName] ++ dl.1 ++
                 [CloudCall.deleteRole targetRoleName],
               "Role " ++ targetRoleName ++
                 " and its policies are detached and deleted in account " ++ targetAccountID,
               none)
          else
            (d.1 ++ [CloudCall.listRolePolicies targetRoleName] ++ dl.1,
             "Policies detached from role " ++ targetRoleName ++ " in account " ++ targetAccountID,
             none)

/-- `manageRole` (lines 129-176): builds the assumed-role ARN in the target
account, then lists and detaches managed policies, lists and deletes inline
policies, and deletes the role when the action is `delete_role`. -/
def manageRole (env : Env) (action : Action)
    (targetAccountID roleToAssume targetRoleName : String) :
    List CloudCall × String × Option String :=
  let arn := "arn:aws:iam::" ++ targetAccountID ++ ":role/" ++ roleToAssume
  let rest := manageRoleAux env action targetAccountID targetRoleName
  (CloudCall.assumeRole arn :: CloudCall.listAttachedRolePolicies targetRoleName :: rest.1,
   rest.2.1, rest.2.2)

/-- Body of `applySCP` after the credential setup: `CreatePolicy` with the
fixed name/description/type constants, then `AttachPolicy` to the target
account. -/
def applySCPAux (env : Env) (scpPolicy targetAccountID : String) :
    List CloudCall × String × Option String :=
  let create := CloudCall.createPolicy scpPolicy "Highly Restrictive SCP"
    "HighlyRestrictiveSCP" "SERVICE_CONTROL_POLICY"
  match env.org.createPolicy with
  | Except.error e => ([create], "", some ("error creating SCP: " ++ e))
  | Except.ok policyId =>
    match env.org.attachPolicy policyId targetAccountID with
    | some e =>
      ([create, CloudCall.attachPolicy policyId targetAccountID], "",
       some ("error attaching SCP to account " ++ targetAccountID ++ ": " ++ e))
    | none =>
      ([create, CloudCall.attachPolicy policyId targetAccountID],
       "SCP applied to account " ++ targetAccountID ++ " with policy ID " ++ policyId,
       none)

/-- `applySCP` (lines 94-126): builds the assumed-role ARN in the
management account, creates the SCP from the raw config payload, and
attaches it to the target account. -/
def applySCP (env : Env) (managementAccount targetAccountID roleToAssume : String)
    (config : Config) : List CloudCall × String × Option String :=
  let arn := "arn:aws:iam::" ++ managementAccount ++ ":role/" ++ roleToAssume
  let scpPolicy := config.SwitchPolicies.SCPolicy
  let rest := applySCPAux env scpPolicy targetAccountID
  (CloudCall.assumeRole arn :: rest.1, rest.2.1, rest.2.2)

/-- The observable result of one `HandleRequest` invocation: the provider
calls issued (in order), whether `switch.conf` was read, the region handed
to `session.NewSession` (`none` when validation fails before the session is
created), and the Go `(string, error)` return pair. -/
structure HandleOutput where
  calls : List CloudCall
  configRead : Bool
  sessionRegion : Option String
  outcome : String
  err : Option String
  deriving DecidableEq, Repr

/-- `HandleRequest` (lines 44-78): validates required fields, defaults the
region, and dispatches on the action. -/
def HandleRequest (env : Env) (request : Request) : HandleOutput :=
  if request.TargetAccountID = "" ∨ request.RoleToAssume = "" then
    { calls := [], configRead := false, sessionRegion := none, outcome := "",
      err := some "targetAccountID and roleToAssume are required" }
  else
    let region := if request.Region = "" then DefaultRegion else request.Region
    if request.Action = ApplySCP then
      if request.OrgManagementAccountID = "" then
        { calls := [], configRead := false, sessionRegion := some region, outcome := "",
          err := some "managementAccount is required for apply_scp action" }
      else
        match env.config with
        | Except.error e =>
          { calls := [], configRead := true, sessionRegion := some region, outcome := "",
            err := some ("error loading config file: " ++ e) }
        | Except.ok config =>
          let r := applySCP env request.OrgManagementAccountID request.TargetAccountID
            request.RoleToAssume config
          { calls := r.1, configRead := true, sessionRegion := some region,
            outcome := r.2.1, err := r.2.2 }
    else if request.Action = DetachPolicies ∨ request.Action = DeleteRole then
      if request.TargetRoleName = "" then
        { calls := [], configRead := false, sessionRegion := some region, outcome := "",
          err := some "targetRoleName is required for delete_role and detach_policies actions" }
      else
        let r := manageRole env request.Action request.TargetAccountID request.RoleToAssume
          request.TargetRoleName
        { calls := r.1, configRead := false, sessionRegion := some region,
          outcome := r.2.1, err := r.2.2 }
    else
      { calls := [], configRead := false, sessionRegion := some region, outcome := "",
        err := some "invalid action" }

/-- Recognizer for `detachRolePolicy` trace events. -/
def isDetachCall : CloudCall → Bool
  | CloudCall.detachRolePolicy _ _ => true
  | _ => false

/-- Recognizer for `deleteRolePolicy` (inline-policy deletion) trace events. -/
def isInlineDeleteCall : CloudCall → Bool
  | CloudCall.deleteRolePolicy _ _ => true
  | _ => false

/-- Recognizer for `deleteRole` (identity deletion) trace events. -/
def isDeleteRoleCall : CloudCall → Bool
  | CloudCall.deleteRole _ => true
  | _ => false

/-- Recognizer for `createPolicy` trace events. -/
def isCreatePolicyCall : CloudCall → Bool
  | CloudCall.createPolicy _ _ _ _ => true
  | _ => false

/-- Recognizer for `attachPolicy` trace events. -/
def isAttachPolicyCall : CloudCall → Bool
  | CloudCall.attachPolicy _ _ => true
  | _ => false

/-- An IAM provider on which every call succeeds: two attached managed
policies and one inline policy on the target role. -/
def iamAllOk : IamProvider :=
  { listAttached := Except.ok ["arnA", "arnB"],
    detach := fun _ => none,
    listInline := Except.ok ["inline1"],
    deleteInline := fun _ => none,
    deleteRoleErr := none }

/-- An Organizations provider on which every call succeeds, minting policy
id `p-123`. -/
def orgAllOk : OrgProvider :=
  { createPolicy := Except.ok "p-123", attachPolicy := fun _ _ => none }

/-- A well-formed loaded configuration. -/
def cfgOk : Config :=
  { SwitchConfigVersion := "1", SwitchPolicies := { SCPolicy := "policydoc" } }

/-- An environment on which everything succeeds. -/
def envAllOk : Env := { config := Except.ok cfgOk, org := orgAllOk, iam := iamAllOk }

/-- An Organizations provider where policy creation succeeds but attachment
is denied. -/
def orgAttachFail : OrgProvider :=
  { createPolicy := Except.ok "p-123", attachPolicy := fun _ _ => some "denied" }

/-- The environment for the attach-failure witness. -/
def envAttachFail : Env := { config := Except.ok cfgOk, org := orgAttachFail, iam := iamAllOk }

/-- An environment whose `switch.conf` cannot be read. -/
def envConfigFail : Env :=
  { config := Except.error "no such file", org := orgAllOk, iam := iamAllOk }

end KillSwitch

namespace KillSwitch

/-- Claim C1: a request with empty `target_account_id` or empty
`role_to_assume` is rejected with the validation error, for any action and
any provider behaviour, with no cloud call issued and the config never
read. -/
theorem c1_missing_required_fields (env : Env) (request : Request)
    (h : request.TargetAccountID = "" ∨ request.RoleToAssume = "") :
    HandleRequest env request =
      { calls := [], configRead := false, sessionRegion := none, outcome := "",
        err := some "targetAccountID and roleToAssume are required" } := by
  unfold HandleRequest
  rw [if_pos h]

/-- Witness for C1 at a concrete request with an empty target account id. -/
theorem c1_missing_required_fields_witness :
    HandleRequest default
      { Action := ApplySCP, TargetAccountID := "", RoleToAssume := "r",
        TargetRoleName := "", OrgManagementAccountID := "m", Region := "" } =
      { calls := [], configRead := false, sessionRegion := none, outcome := "",
        err := some "targetAccountID and roleToAssume are required" } :=
  c1_missing_required_fields default _ (Or.inl rfl)

/-- The detach loop succeeds on a list of policies whose detachments all
succeed, attempting each one in order. -/
theorem detachLoop_all_ok (env : Env) (tgt rname : String) (arns : List String)
    (hok : ∀ a ∈ arns, env.iam.detach a = none) :
    detachLoop env tgt rname arns =
      (arns.map (fun a => CloudCall.detachRolePolicy rname a), none) := by
  induction arns with
  | nil => rfl
  | cons a as ih =>
    have ha : env.iam.detach a = none := hok a (by simp)
    simp [detachLoop, ha, ih (fun x hx => hok x (by simp [hx]))]

/-- The detach loop stops at the first failing policy: every policy before
it is detached, the failing call is issued, and the error names it. -/
theorem detachLoop_first_fail (env : Env) (tgt rname : String)
    (pre rest : List String) (bad e : String)
    (hok : ∀ a ∈ pre, env.iam.detach a = none)
    (hbad : env.iam.detach bad = some e) :
    detachLoop env tgt rname (pre ++ bad :: rest) =
      ((pre ++ [bad]).map (fun a => CloudCall.detachRolePolicy rname a),
       some ("error detaching policy " ++ bad ++ " from role " ++ rname ++
             " in account " ++ tgt ++ ": " ++ e)) := by
  induction pre with
  | nil => simp [detachLoop, hbad]
  | cons a as ih =>
    have ha : env.iam.detach a = none := hok a (by simp)
    simp [detachLoop, ha, ih (fun x hx => hok x (by simp [hx]))]

/-- The inline-deletion loop succeeds on a list of inline policies whose
deletions all succeed, attempting each one in order. -/
theorem deleteInlineLoop_all_ok (env : Env) (tgt rname : String) (names : List String)
    (hok : ∀ n ∈ names, env.iam.deleteInline n = none) :
    deleteInlineLoop env tgt rname names =
      (names.map (fun n => CloudCall.deleteRolePolicy rname n), none) := by
  induction names with
  | nil => rfl
  | cons n ns ih =>
    have hn : env.iam.deleteInline n = none := hok n (by simp)
    simp [deleteInlineLoop, hn, ih (fun x hx => hok x (by simp [hx]))]

/-- Claim C2: if the detachment of the `k`-th attached managed policy fails
(`k = pre.length + 1`, the policies in `pre` before it all detaching
cleanly), `manageRole` issues exactly the `k` detach calls for
`pre ++ [bad]` — so exactly `k - 1 = pre.length` detachments succeeded —
issues no inline-policy list/delete call and no role-delete call, and
returns the `DetachError` naming the ARN `bad` of the failing policy. -/
theorem c2_detach_failure_stops (env : Env) (action : Action)
    (targetAccountID roleToAssume targetRoleName : String)
    (pre rest : List String) (bad e : String)
    (hlist : env.iam.listAttached = Except.ok (pre ++ bad :: rest))
    (hok : ∀ a ∈ pre, env.iam.detach a = none)
    (hbad : env.iam.detach bad = some e) :
    manageRole env action targetAccountID roleToAssume targetRoleName =
      (CloudCall.assumeRole ("arn:aws:iam::" ++ targetAccountID ++ ":role/" ++ roleToAssume)
         :: CloudCall.listAttachedRolePolicies targetRoleName
         :: (pre ++ [bad]).map (fun a => CloudCall.detachRolePolicy targetRoleName a),
       "",
       some ("error detaching policy " ++ bad ++ " from role " ++ targetRoleName ++
             " in account " ++ targetAccountID ++ ": " ++ e)) := by
  unfold manageRole manageRoleAux
  rw [hlist]
  simp [detachLoop_first_fail env targetAccountID targetRoleName pre rest bad e hok hbad]

/-- An IAM provider where detaching `arnB` fails with `denied` and
everything else succeeds; the role has `arnA` and `arnB` attached. -/
def iamDetachFail : IamProvider :=
  { listAttached := Except.ok ["arnA", "arnB"],
    detach := fun a => if a = "arnB" then some "denied" else none,
    listInline := Except.ok ["inline1"],
    deleteInline := fun _ => none,
    deleteRoleErr := none }

/-- The environment for the detach-failure witness. -/
def envDetachFail : Env := { config := default, org := default, iam := iamDetachFail }

/-- Witness for C2: with two attached policies and the second detach
failing, exactly the two detach calls appear, one having succeeded, and the
error names `arnB`. -/
theorem c2_detach_failure_stops_witness :
    manageRole envDetachFail DetachPolicies "111122223333" "killswitch" "target-role" =
      ([CloudCall.assumeRole "arn:aws:iam::111122223333:role/killswitch",
        CloudCall.listAttachedRolePolicies "target-role",
        CloudCall.detachRolePolicy "target-role" "arnA",
        CloudCall.detachRolePolicy "target-role" "arnB"],
       "",
       some "error detaching policy arnB from role target-role in account 111122223333: denied") := by
  have h := c2_detach_failure_stops envDetachFail DetachPolicies "111122223333" "killswitch"
    "target-role" ["arnA"] [] "arnB" "denied" rfl (by decide) rfl
  simpa using h

/-- When every cleanup call succeeds, `manageRoleAux` on `detach_policies`
issues the detach calls, the inline listing, and the inline deletions, and
returns the detachment-only success message. -/
theorem manageRoleAux_detach_ok (env : Env) (tgt rname : String)
    (arns names : List String)
    (hlist : env.iam.listAttached = Except.ok arns)
    (hd : ∀ a ∈ arns, env.iam.detach a = none)
    (hli : env.iam.listInline = Except.ok names)
    (hdi : ∀ n ∈ names, env.iam.deleteInline n = none) :
    manageRoleAux env DetachPolicies tgt rname =
      (arns.map (fun a => CloudCall.detachRolePolicy rname a) ++
         [CloudCall.listRolePolicies rname] ++
         names.map (fun n => CloudCall.deleteRolePolicy rname n),
       "Policies detached from role " ++ rname ++ " in account " ++ tgt,
       none) := by
  simp [manageRoleAux, hlist, detachLoop_all_ok env tgt rname arns hd, hli,
    deleteInlineLoop_all_ok env tgt rname names hdi, DetachPolicies, DeleteRole]

/-- When every cleanup call and the final role deletion succeed,
`manageRoleAux` on `delete_role` issues the same cleanup calls followed by
exactly one role-delete call, and returns the detach-and-delete message. -/
theorem manageRoleAux_delete_ok (env : Env) (tgt rname : String)
    (arns names : List String)
    (hlist : env.iam.listAttached = Except.ok arns)
    (hd : ∀ a ∈ arns, env.iam.detach a = none)
    (hli : env.iam.listInline = Except.ok names)
    (hdi : ∀ n ∈ names, env.iam.deleteInline n = none)
    (hdr : env.iam.deleteRoleErr = none) :
    manageRoleAux env DeleteRole tgt rname =
      (arns.map (fun a => CloudCall.detachRolePolicy rname a) ++
         [CloudCall.listRolePolicies rname] ++
         names.map (fun n => CloudCall.deleteRolePolicy rname n) ++
         [CloudCall.deleteRole rname],
       "Role " ++ rname ++ " and its policies are detached and deleted in account " ++ tgt,
       none) := by
  simp [manageRoleAux, hlist, detachLoop_all_ok env tgt rname arns hd, hli,
    deleteInlineLoop_all_ok env tgt rname names hdi, hdr]

/-- Counting a predicate that holds of every image element over a mapped
list yields the length of the list. -/
theorem countP_map_true {α β : Type} (f : α → β) (p : β → Bool) (l : List α)
    (h : ∀ a, p (f a) = true) : (l.map f).countP p = l.length := by
  induction l with
  | nil => rfl
  | cons a as ih => simp [List.countP_cons, h, ih]

/-- Counting a predicate that fails on every image element over a mapped
list yields zero. -/
theorem countP_map_false {α β : Type} (f : α → β) (p : β → Bool) (l : List α)
    (h : ∀ a, p (f a) = false) : (l.map f).countP p = 0 := by
  induction l with
  | nil => rfl
  | cons a as ih => simp [List.countP_cons, h, ih]

/-- Claim C5: on an identity with attached managed policies `arns` and
inline policies `names`, with every provider call succeeding,
`detach_policies` issues exactly one detach call per managed policy and one
delete call per inline policy, zero role-delete calls, and returns the
success message "Policies detached from role … in account …", whose
template does not mention deletion. -/
theorem c5_detach_policies_success (env : Env)
    (targetAccountID roleToAssume targetRoleName : String)
    (arns names : List String)
    (hlist : env.iam.listAttached = Except.ok arns)
    (hd : ∀ a ∈ arns, env.iam.detach a = none)
    (hli : env.iam.listInline = Except.ok names)
    (hdi : ∀ n ∈ names, env.iam.deleteInline n = none) :
    manageRole env DetachPolicies targetAccountID roleToAssume targetRoleName =
      (CloudCall.assumeRole ("arn:aws:iam::" ++ targetAccountID ++ ":role/" ++ roleToAssume)
         :: CloudCall.listAttachedRolePolicies targetRoleName
         :: (arns.map (fun a => CloudCall.detachRolePolicy targetRoleName a) ++
             [CloudCall.listRolePolicies targetRoleName] ++
             names.map (fun n => CloudCall.deleteRolePolicy targetRoleName n)),
       "Policies detached from role " ++ targetRoleName ++ " in account " ++ targetAccountID,
       none)
    ∧ (manageRole env DetachPolicies targetAccountID roleToAssume targetRoleName).1.countP
        isDetachCall = arns.length
    ∧ (manageRole env DetachPolicies targetAccountID roleToAssume targetRoleName).1.countP
        isInlineDeleteCall = names.length
    ∧ (manageRole env DetachPolicies targetAccountID roleToAssume targetRoleName).1.countP
        isDeleteRoleCall = 0 := by
  have hmain : manageRole env DetachPolicies targetAccountID roleToAssume targetRoleName =
      (CloudCall.assumeRole ("arn:aws:iam::" ++ targetAccountID ++ ":role/" ++ roleToAssume)
         :: CloudCall.listAttachedRolePolicies targetRoleName
         :: (arns.map (fun a => CloudCall.detachRolePolicy targetRoleName a) ++
             [CloudCall.listRolePolicies targetRoleName] ++
             names.map (fun n => CloudCall.deleteRolePolicy targetRoleName n)),
       "Policies detached from role " ++ targetRoleName ++ " in account " ++ targetAccountID,
       none) := by
    unfold manageRole
    rw [manageRoleAux_detach_ok env targetAccountID targetRoleName arns names hlist hd hli hdi]
  refine ⟨hmain, ?_, ?_, ?_⟩
  · rw [hmain]
    simp only [List.countP_cons, List.countP_append,
      countP_map_true (fun a => CloudCall.detachRolePolicy targetRoleName a) isDetachCall arns
        (fun _ => rfl),
      countP_map_false (fun n => CloudCall.deleteRolePolicy targetRoleName n) isDetachCall names
        (fun _ => rfl)]
    simp [isDetachCall]
  · rw [hmain]
    simp only [List.countP_cons, List.countP_append,
      countP_map_false (fun a => CloudCall.detachRolePolicy targetRoleName a) isInlineDeleteCall
        arns (fun _ => rfl),
      countP_map_true (fun n => CloudCall.deleteRolePolicy targetRoleName n) isInlineDeleteCall
        names (fun _ => rfl)]
    simp [isInlineDeleteCall]
  · rw [hmain]
    simp only [List.countP_cons, List.countP_append,
      countP_map_false (fun a => CloudCall.detachRolePolicy targetRoleName a) isDeleteRoleCall
        arns (fun _ => rfl),
      countP_map_false (fun n => CloudCall.deleteRolePolicy targetRoleName n) isDeleteRoleCall
        names (fun _ => rfl)]
    simp [isDeleteRoleCall]

/-- Witness for C5: on the all-success environment with two managed and one
inline policy, `detach_policies` issues the two detaches, the inline
listing, and the one inline deletion, and no role deletion. -/
theorem c5_detach_policies_success_witness :
    manageRole envAllOk DetachPolicies "111122223333" "killswitch" "target-role" =
      ([CloudCall.assumeRole "arn:aws:iam::111122223333:role/killswitch",
        CloudCall.listAttachedRolePolicies "target-role",
        CloudCall.detachRolePolicy "target-role" "arnA",
        CloudCall.detachRolePolicy "target-role" "arnB",
        CloudCall.listRolePolicies "target-role",
        CloudCall.deleteRolePolicy "target-role" "inline1"],
       "Policies detached from role target-role in account 111122223333", none) := by
  have h := (c5_detach_policies_success envAllOk "111122223333" "killswitch" "target-role"
    ["arnA", "arnB"] ["inline1"] rfl (by decide) rfl (by decide)).1
  simpa using h

/-- Claim C6: on the same identity, with every provider call succeeding,
`delete_role` issues the same cleanup calls as `detach_policies` — one
detach per managed policy and one inline deletion per inline policy —
followed by exactly one role-delete call, issued only after all cleanup
calls, and returns the success message naming the target account id and
confirming the role and its policies are "detached and deleted". -/
theorem c6_delete_role_success (env : Env)
    (targetAccountID roleToAssume targetRoleName : String)
    (arns names : List String)
    (hlist : env.iam.listAttached = Except.ok arns)
    (hd : ∀ a ∈ arns, env.iam.detach a = none)
    (hli : env.iam.listInline = Except.ok names)
    (hdi : ∀ n ∈ names, env.iam.deleteInline n = none)
    (hdr : env.iam.deleteRoleErr = none) :
    manageRole env DeleteRole targetAccountID roleToAssume targetRoleName =
      (CloudCall.assumeRole ("arn:aws:iam::" ++ targetAccountID ++ ":role/" ++ roleToAssume)
         :: CloudCall.listAttachedRolePolicies targetRoleName
         :: (arns.map (fun a => CloudCall.detachRolePolicy targetRoleName a) ++
             [CloudCall.listRolePolicies targetRoleName] ++
             names.map (fun n => CloudCall.deleteRolePolicy targetRoleName n) ++
             [CloudCall.deleteRole targetRoleName]),
       "Role " ++ targetRoleName ++ " and its policies are detached and deleted in account " ++
         targetAccountID,
       none)
    ∧ (manageRole env DeleteRole targetAccountID roleToAssume targetRoleName).1.countP
        isDetachCall = arns.length
    ∧ (manageRole env DeleteRole targetAccountID roleToAssume targetRoleName).1.countP
        isInlineDeleteCall = names.length
    ∧ (manageRole env DeleteRole targetAccountID roleToAssume targetRoleName).1.countP
        isDeleteRoleCall = 1 := by
  have hmain : manageRole env DeleteRole targetAccountID roleToAssume targetRoleName =
      (CloudCall.assumeRole ("arn:aws:iam::" ++ targetAccountID ++ ":role/" ++ roleToAssume)
         :: CloudCall.listAttachedRolePolicies targetRoleName
         :: (arns.map (fun a => CloudCall.detachRolePolicy targetRoleName a) ++
             [CloudCall.listRolePolicies targetRoleName] ++
             names.map (fun n => CloudCall.deleteRolePolicy targetRoleName n) ++
             [CloudCall.deleteRole targetRoleName]),
       "Role " ++ targetRoleName ++ " and its policies are detached and deleted in account " ++
         targetAccountID,
       none) := by
    unfold manageRole
    rw [manageRoleAux_delete_ok env targetAccountID targetRoleName arns names hlist hd hli hdi hdr]
  refine ⟨hmain, ?_, ?_, ?_⟩
  · rw [hmain]
    simp only [List.countP_cons, List.countP_append,
      countP_map_true (fun a => CloudCall.detachRolePolicy targetRoleName a) isDetachCall arns
        (fun _ => rfl),
      countP_map_false (fun n => CloudCall.deleteRolePolicy targetRoleName n) isDetachCall names
        (fun _ => rfl)]
    simp [isDetachCall]
  · rw [hmain]
    simp only [List.countP_cons, List.countP_append,
      countP_map_false (fun a => CloudCall.detachRolePolicy targetRoleName a) isInlineDeleteCall
        arns (fun _ => rfl),
      countP_map_true (fun n => CloudCall.deleteRolePolicy targetRoleName n) isInlineDeleteCall
        names (fun _ => rfl)]
    simp [isInlineDeleteCall]
  · rw [hmain]
    simp only [List.countP_cons, List.countP_append,
      countP_map_false (fun a => CloudCall.detachRolePolicy targetRoleName a) isDeleteRoleCall
        arns (fun _ => rfl),
      countP_map_false (fun n => CloudCall.deleteRolePolicy targetRoleName n) isDeleteRoleCall
        names (fun _ => rfl)]
    simp [isDeleteRoleCall]

/-- Witness for C6: on the all-success environment, `delete_role` performs
the same cleanup calls as `detach_policies` plus one final role deletion,
and the message confirms detachment and deletion in the target account. -/
theorem c6_delete_role_success_witness :
    manageRole envAllOk DeleteRole "111122223333" "killswitch" "target-role" =
      ([CloudCall.assumeRole "arn:aws:iam::111122223333:role/killswitch",
        CloudCall.listAttachedRolePolicies "target-role",
        CloudCall.detachRolePolicy "target-role" "arnA",
        CloudCall.detachRolePolicy "target-role" "arnB",
        CloudCall.listRolePolicies "target-role",
        CloudCall.deleteRolePolicy "target-role" "inline1",
        CloudCall.deleteRole "target-role"],
       "Role target-role and its policies are detached and deleted in account 111122223333",
       none) := by
  have h := (c6_delete_role_success envAllOk "111122223333" "killswitch" "target-role"
    ["arnA", "arnB"] ["inline1"] rfl (by decide) rfl (by decide) rfl).1
  simpa using h

/-- Claim C3: `applySCP` always issues exactly one create-policy call; when
creation fails no attach call is issued; when creation succeeds and
attachment fails, the trace is exactly create-then-attach with no cleanup
call afterwards and the result is the `PolicyAttachError`; on success the
returned message embeds the target account id and the
identifier of the new policy. -/
theorem c3_apply_scp_calls (env : Env)
    (managementAccount targetAccountID roleToAssume : String) (config : Config) :
    (applySCP env managementAccount targetAccountID roleToAssume config).1.countP
        isCreatePolicyCall = 1
    ∧ (∀ e, env.org.createPolicy = Except.error e →
        (applySCP env managementAccount targetAccountID roleToAssume config).1.countP
          isAttachPolicyCall = 0)
    ∧ (∀ pid e, env.org.createPolicy = Except.ok pid →
        env.org.attachPolicy pid targetAccountID = some e →
        applySCP env managementAccount targetAccountID roleToAssume config =
          ([CloudCall.assumeRole
              ("arn:aws:iam::" ++ managementAccount ++ ":role/" ++ roleToAssume),
            CloudCall.createPolicy config.SwitchPolicies.SCPolicy "Highly Restrictive SCP"
              "HighlyRestrictiveSCP" "SERVICE_CONTROL_POLICY",
            CloudCall.attachPolicy pid targetAccountID],
           "",
           some ("error attaching SCP to account " ++ targetAccountID ++ ": " ++ e)))
    ∧ (∀ pid, env.org.createPolicy = Except.ok pid →
        env.org.attachPolicy pid targetAccountID = none →
        (applySCP env managementAccount targetAccountID roleToAssume config).2.1 =
          "SCP applied to account " ++ targetAccountID ++ " with policy ID " ++ pid) := by
  refine ⟨?_, ?_, ?_, ?_⟩
  · rcases hc : env.org.createPolicy with e | pid
    · simp [applySCP, applySCPAux, hc, isCreatePolicyCall, List.countP_cons]
    · rcases ha : env.org.attachPolicy pid targetAccountID with _ | e2 <;>
        simp [applySCP, applySCPAux, hc, ha, isCreatePolicyCall, List.countP_cons]
  · intro e hc
    simp [applySCP, applySCPAux, hc, isAttachPolicyCall, List.countP_cons]
  · intro pid e hc ha
    simp [applySCP, applySCPAux, hc, ha]
  · intro pid hc ha
    simp [applySCP, applySCPAux, hc, ha]

/-- Witness for C3: on the environment where attachment is denied,
`applySCP` issues the create call, then the attach call, and fails with the
attach error; no further call is issued. -/
theorem c3_apply_scp_calls_witness :
    applySCP envAttachFail "999988887777" "111122223333" "killswitch" cfgOk =
      ([CloudCall.assumeRole "arn:aws:iam::999988887777:role/killswitch",
        CloudCall.createPolicy "policydoc" "Highly Restrictive SCP" "HighlyRestrictiveSCP"
          "SERVICE_CONTROL_POLICY",
        CloudCall.attachPolicy "p-123" "111122223333"],
       "",
       some "error attaching SCP to account 111122223333: denied") := by
  have h := (c3_apply_scp_calls envAttachFail "999988887777" "111122223333" "killswitch"
    cfgOk).2.2.1 "p-123" "denied" rfl rfl
  simpa using h

/-- Claim C4: for an `apply_scp` request passing the global field checks,
an empty `org_management_account_id` yields the validation error with the
config never read and no cloud call; a non-empty one with an unreadable or
malformed config yields the wrapped `ConfigError` with no cloud call and
the executor never invoked. -/
theorem c4_apply_scp_config (env : Env) (request : Request)
    (hA : request.Action = ApplySCP)
    (hT : ¬ request.TargetAccountID = "") (hR : ¬ request.RoleToAssume = "") :
    (request.OrgManagementAccountID = "" →
      HandleRequest env request =
        { calls := [], configRead := false,
          sessionRegion := some (if request.Region = "" then DefaultRegion else request.Region),
          outcome := "", err := some "managementAccount is required for apply_scp action" })
    ∧ (∀ e, ¬ request.OrgManagementAccountID = "" → env.config = Except.error e →
      HandleRequest env request =
        { calls := [], configRead := true,
          sessionRegion := some (if request.Region = "" then DefaultRegion else request.Region),
          outcome := "", err := some ("error loading config file: " ++ e) }) := by
  constructor
  · intro hO
    simp [HandleRequest, hT, hR, hA, hO]
  · intro e hO hc
    simp [HandleRequest, hT, hR, hA, hO, hc]

/-- Witness for C4 at a concrete `apply_scp` request against an environment
whose config file is unreadable. -/
theorem c4_apply_scp_config_witness :
    HandleRequest envConfigFail
      { Action := ApplySCP, TargetAccountID := "111122223333", RoleToAssume := "killswitch",
        TargetRoleName := "", OrgManagementAccountID := "999988887777", Region := "" } =
      { calls := [], configRead := true, sessionRegion := some DefaultRegion, outcome := "",
        err := some "error loading config file: no such file" } := by
  have h := (c4_apply_scp_config envConfigFail
    { Action := ApplySCP, TargetAccountID := "111122223333", RoleToAssume := "killswitch",
      TargetRoleName := "", OrgManagementAccountID := "999988887777", Region := "" }
    rfl (by decide) (by decide)).2 "no such file" (by decide) rfl
  simpa using h

/-- Once the global required-field check passes, the region handed to the
session is the region of the request, defaulted to `DefaultRegion` when empty,
in every dispatch branch. -/
theorem handleRequest_sessionRegion (env : Env) (request : Request)
    (hT : ¬ request.TargetAccountID = "") (hR : ¬ request.RoleToAssume = "") :
    (HandleRequest env request).sessionRegion =
      some (if request.Region = "" then DefaultRegion else request.Region) := by
  by_cases hA : request.Action = ApplySCP
  · by_cases hO : request.OrgManagementAccountID = ""
    · simp [HandleRequest, hT, hR, hA, hO]
    · rcases hc : env.config with e | cfg <;>
        simp [HandleRequest, hT, hR, hA, hO, hc]
  · by_cases hD : request.Action = DetachPolicies ∨ request.Action = DeleteRole
    · by_cases hN : request.TargetRoleName = "" <;>
        simp [HandleRequest, hT, hR, hA, hD, hN]
    · rw [not_or] at hD
      simp [HandleRequest, hT, hR, hA, hD.1, hD.2]

/-- Claim C7: an empty region makes `HandleRequest` behave exactly as if the
fixed default region had been supplied — it never fails for the missing
region — and the session region is the default; a supplied region is kept
unchanged. -/
theorem c7_region_default (env : Env) (request : Request) :
    (request.Region = "" →
      HandleRequest env request = HandleRequest env { request with Region := DefaultRegion })
    ∧ (request.Region = "" → ¬ request.TargetAccountID = "" → ¬ request.RoleToAssume = "" →
      (HandleRequest env request).sessionRegion = some DefaultRegion)
    ∧ (¬ request.Region = "" → ¬ request.TargetAccountID = "" → ¬ request.RoleToAssume = "" →
      (HandleRequest env request).sessionRegion = some request.Region) := by
  refine ⟨?_, ?_, ?_⟩
  · intro h
    simp [HandleRequest, h, DefaultRegion]
  · intro h hT hR
    rw [handleRequest_sessionRegion env request hT hR]
    simp [h]
  · intro h hT hR
    rw [handleRequest_sessionRegion env request hT hR]
    simp [h]

/-- Witness for C7: a `detach_policies` request omitting the region gets
the default region `us-east-1` for its session. -/
theorem c7_region_default_witness :
    (HandleRequest envAllOk
      { Action := DetachPolicies, TargetAccountID := "111122223333",
        RoleToAssume := "killswitch", TargetRoleName := "target-role",
        OrgManagementAccountID := "", Region := "" }).sessionRegion = some DefaultRegion :=
  (c7_region_default envAllOk
    { Action := DetachPolicies, TargetAccountID := "111122223333",
      RoleToAssume := "killswitch", TargetRoleName := "target-role",
      OrgManagementAccountID := "", Region := "" }).2.1 rfl (by decide) (by decide)

/-- Claim C8: the assumed-role identifier is always built as
`arn:aws:iam::<account>:role/<role>`; `applySCP` assumes the role in the
organization management account while `manageRole` (detach_policies /
delete_role) assumes it in the target account, as the first step of each
executor. -/
theorem c8_assumed_role_arn (env : Env)
    (managementAccount targetAccountID roleToAssume targetRoleName : String)
    (config : Config) (action : Action) :
    (applySCP env managementAccount targetAccountID roleToAssume config).1.head? =
      some (CloudCall.assumeRole
        ("arn:aws:iam::" ++ managementAccount ++ ":role/" ++ roleToAssume))
    ∧ (manageRole env action targetAccountID roleToAssume targetRoleName).1.head? =
      some (CloudCall.assumeRole
        ("arn:aws:iam::" ++ targetAccountID ++ ":role/" ++ roleToAssume)) :=
  ⟨rfl, rfl⟩

/-- Claim C9: a request with both required fields present but an action
outside the three recognized values fails with the invalid-action error and
issues no cloud call (and never reads the config). -/
theorem c9_invalid_action (env : Env) (request : Request)
    (hT : ¬ request.TargetAccountID = "") (hR : ¬ request.RoleToAssume = "")
    (hA : ¬ request.Action = ApplySCP) (hD : ¬ request.Action = DetachPolicies)
    (hDel : ¬ request.Action = DeleteRole) :
    HandleRequest env request =
      { calls := [], configRead := false,
        sessionRegion := some (if request.Region = "" then DefaultRegion else request.Region),
        outcome := "", err := some "invalid action" } := by
  simp [HandleRequest, hT, hR, hA, hD, hDel]

/-- Witness for C9 at the unrecognized action `"reboot"`. -/
theorem c9_invalid_action_witness :
    HandleRequest envAllOk
      { Action := "reboot", TargetAccountID := "111122223333", RoleToAssume := "killswitch",
        TargetRoleName := "", OrgManagementAccountID := "", Region := "eu-west-1" } =
      { calls := [], configRead := false, sessionRegion := some "eu-west-1", outcome := "",
        err := some "invalid action" } := by
  have h := c9_invalid_action envAllOk
    { Action := "reboot", TargetAccountID := "111122223333", RoleToAssume := "killswitch",
      TargetRoleName := "", OrgManagementAccountID := "", Region := "eu-west-1" }
    (by decide) (by decide) (by decide) (by decide) (by decide)
  simpa using h

/-- A string of positive length is not the empty string. -/
theorem ne_empty_of_length_pos (s : String) (h : 0 < s.length) : ¬ s = "" := by
  intro heq
  rw [heq] at h
  simp at h

/-- Appending on the right preserves positive length. -/
theorem append_length_pos_left (s t : String) (h : 0 < s.length) : 0 < (s ++ t).length := by
  rw [String.length_append]
  omega

/-- The `detach_policies` success message is never empty. -/
theorem detach_msg_ne (rname tgt : String) :
    ¬ ("Policies detached from role " ++ rname ++ " in account " ++ tgt) = "" :=
  ne_empty_of_length_pos _ (append_length_pos_left _ _ (append_length_pos_left _ _
    (append_length_pos_left _ _ (by decide))))

/-- The `delete_role` success message is never empty. -/
theorem delete_msg_ne (rname tgt : String) :
    ¬ ("Role " ++ rname ++ " and its policies are detached and deleted in account " ++ tgt)
      = "" :=
  ne_empty_of_length_pos _ (append_length_pos_left _ _ (append_length_pos_left _ _
    (append_length_pos_left _ _ (by decide))))

/-- The `apply_scp` success message is never empty. -/
theorem scp_msg_ne (tgt pid : String) :
    ¬ ("SCP applied to account " ++ tgt ++ " with policy ID " ++ pid) = "" :=
  ne_empty_of_length_pos _ (append_length_pos_left _ _ (append_length_pos_left _ _
    (append_length_pos_left _ _ (by decide))))

/-- `manageRoleAux` returns an empty outcome exactly when it returns an
error. -/
theorem manageRoleAux_exclusive (env : Env) (action : Action) (tgt rname : String) :
    (¬ (manageRoleAux env action tgt rname).2.2 = none →
      (manageRoleAux env action tgt rname).2.1 = "")
    ∧ ((manageRoleAux env action tgt rname).2.2 = none →
      ¬ (manageRoleAux env action tgt rname).2.1 = "") := by
  unfold manageRoleAux
  rcases hl : env.iam.listAttached with e | arns
  · simp
  · rcases hd : (detachLoop env tgt rname arns).2 with _ | msg
    · rcases hi : env.iam.listInline with e2 | names
      · simp [hd, hi]
      · rcases hdel : (deleteInlineLoop env tgt rname names).2 with _ | msg2
        · by_cases hA : action = DeleteRole
          · rcases hr : env.iam.deleteRoleErr with _ | e3
            · simp [hd, hi, hdel, hA, hr, delete_msg_ne rname tgt]
            · simp [hd, hi, hdel, hA, hr]
          · simp [hd, hi, hdel, hA, detach_msg_ne rname tgt]
        · simp [hd, hi, hdel]
    · simp [hd]

/-- `manageRole` returns an empty outcome exactly when it returns an
error. -/
theorem manageRole_exclusive (env : Env) (action : Action)
    (targetAccountID roleToAssume targetRoleName : String) :
    (¬ (manageRole env action targetAccountID roleToAssume targetRoleName).2.2 = none →
      (manageRole env action targetAccountID roleToAssume targetRoleName).2.1 = "")
    ∧ ((manageRole env action targetAccountID roleToAssume targetRoleName).2.2 = none →
      ¬ (manageRole env action targetAccountID roleToAssume targetRoleName).2.1 = "") :=
  manageRoleAux_exclusive env action targetAccountID targetRoleName

/-- `applySCP` returns an empty outcome exactly when it returns an error. -/
theorem applySCP_exclusive (env : Env) (managementAccount targetAccountID roleToAssume : String)
    (config : Config) :
    (¬ (applySCP env managementAccount targetAccountID roleToAssume config).2.2 = none →
      (applySCP env managementAccount targetAccountID roleToAssume config).2.1 = "")
    ∧ ((applySCP env managementAccount targetAccountID roleToAssume config).2.2 = none →
      ¬ (applySCP env managementAccount targetAccountID roleToAssume config).2.1 = "") := by
  unfold applySCP applySCPAux
  rcases hc : env.org.createPolicy with e | pid
  · simp
  · rcases ha : env.org.attachPolicy pid targetAccountID with _ | e2
    · simp [ha, scp_msg_ne targetAccountID pid]
    · simp [ha]

/-- Claim C10: for every request and every provider behaviour,
`HandleRequest` returns either a success message or an error, never both: a
non-nil error comes with an empty outcome string, and a nil error comes
with a non-empty outcome string. -/
theorem c10_outcome_error_exclusive (env : Env) (request : Request) :
    (¬ (HandleRequest env request).err = none → (HandleRequest env request).outcome = "")
    ∧ ((HandleRequest env request).err = none → ¬ (HandleRequest env request).outcome = "") := by
  by_cases hV : request.TargetAccountID = "" ∨ request.RoleToAssume = ""
  · simp [HandleRequest, hV]
  · rw [not_or] at hV
    by_cases hA : request.Action = ApplySCP
    · by_cases hO : request.OrgManagementAccountID = ""
      · simp [HandleRequest, hV.1, hV.2, hA, hO]
      · rcases hc : env.config with e | cfg
        · simp [HandleRequest, hV.1, hV.2, hA, hO, hc]
        · have hr : HandleRequest env request =
              { calls := (applySCP env request.OrgManagementAccountID request.TargetAccountID
                  request.RoleToAssume cfg).1,
                configRead := true,
                sessionRegion :=
                  some (if request.Region = "" then DefaultRegion else request.Region),
                outcome := (applySCP env request.OrgManagementAccountID request.TargetAccountID
                  request.RoleToAssume cfg).2.1,
                err := (applySCP env request.OrgManagementAccountID request.TargetAccountID
                  request.RoleToAssume cfg).2.2 } := by
            simp [HandleRequest, hV.1, hV.2, hA, hO, hc]
          rw [hr]
          exact applySCP_exclusive env request.OrgManagementAccountID request.TargetAccountID
            request.RoleToAssume cfg
    · by_cases hD : request.Action = DetachPolicies ∨ request.Action = DeleteRole
      · by_cases hN : request.TargetRoleName = ""
        · simp [HandleRequest, hV.1, hV.2, hA, hD, hN]
        · have hr : HandleRequest env request =
              { calls := (manageRole env request.Action request.TargetAccountID
                  request.RoleToAssume request.TargetRoleName).1,
                configRead := false,
                sessionRegion :=
                  some (if request.Region = "" then DefaultRegion else request.Region),
                outcome := (manageRole env request.Action request.TargetAccountID
                  request.RoleToAssume request.TargetRoleName).2.1,
                err := (manageRole env request.Action request.TargetAccountID
                  request.RoleToAssume request.TargetRoleName).2.2 } := by
            simp [HandleRequest, hV.1, hV.2, hA, hD, hN]
          rw [hr]
          exact manageRole_exclusive env request.Action request.TargetAccountID
            request.RoleToAssume request.TargetRoleName
      · rw [not_or] at hD
        simp [HandleRequest, hV.1, hV.2, hA, hD.1, hD.2]

/-- Witness for C10: the all-success `delete_role` request yields a nil
error and a non-empty outcome. -/
theorem c10_outcome_error_exclusive_witness :
    ¬ (HandleRequest envAllOk
      { Action := DeleteRole, TargetAccountID := "111122223333", RoleToAssume := "killswitch",
        TargetRoleName := "target-role", OrgManagementAccountID := "",
        Region := "" }).outcome = "" :=
  (c10_outcome_error_exclusive envAllOk
    { Action := DeleteRole, TargetAccountID := "111122223333", RoleToAssume := "killswitch",
      TargetRoleName := "target-role", OrgManagementAccountID := "", Region := "" }).2
    (by decide)

end KillSwitch
